import Mathlib

/-!
Shallow embedding of the timber-beam checker (Eurocode 5 evaluator):
materials, rectangular sections, load cases, the structural check engine
(src/timber_check.py) and the fire check engine (src/fire_check.py).

All numeric quantities are modelled over the rationals; the Python source
computes over IEEE doubles, but every formula in the checked claims is
field arithmetic, so the rational model is exact.  The single exception is
the square root in the relative slenderness for lateral-torsional
buckling: the slenderness value is irrational in general, so the checks
that consume it are parametrized by the slenderness value and theorems
quantify over it.
-/

/-- Timber kind, `TimberType = Literal["solid", "glulam"]` in materials.py. -/
inductive TimberType where
  | solid
  | glulam
deriving DecidableEq

/-- Material record, `TimberMaterial` dataclass in materials.py. -/
structure TimberMaterial where
  name : String
  timber_type : TimberType
  fm_k : ℚ
  ft_0_k : ℚ
  fv_k : ℚ
  E_0_mean : ℚ
  E_0_05 : ℚ
  rho_k : ℚ
  rho_mean : ℚ
deriving DecidableEq

/-- Partial safety factor, `TimberMaterial.gamma_M` in materials.py. -/
def TimberMaterial.gamma_M (m : TimberMaterial) : ℚ :=
  match m.timber_type with
  | .solid => 1.3
  | .glulam => 1.25

/-- Shear crack-reduction factor, `TimberMaterial.kcr` in materials.py. -/
def TimberMaterial.kcr (m : TimberMaterial) : ℚ :=
  match m.timber_type with
  | .solid => 0.67
  | .glulam => 0.67

/-- Rectangular cross-section, `RectangularSection` dataclass in sections.py
(the record itself; the constructor validation is `mkRectangularSection`). -/
structure RectangularSection where
  b : ℚ
  h : ℚ
deriving DecidableEq

/-- Validating constructor: `RectangularSection.__post_init__` raises when
either dimension is non-positive. -/
def mkRectangularSection (b h : ℚ) : Except String RectangularSection :=
  if b ≤ 0 ∨ h ≤ 0 then
    .error "Rozmery prurezu musi byt kladne"
  else
    .ok ⟨b, h⟩

/-- Area, `RectangularSection.A` in sections.py. -/
def RectangularSection.A (s : RectangularSection) : ℚ := s.b * s.h

/-- Second moment of area about y, `RectangularSection.I_y` in sections.py. -/
def RectangularSection.I_y (s : RectangularSection) : ℚ := s.b * s.h ^ 3 / 12

/-- Section modulus about y, `RectangularSection.W_y` in sections.py. -/
def RectangularSection.W_y (s : RectangularSection) : ℚ := s.b * s.h ^ 2 / 6

/-- Load-duration class, `LoadDuration` literal in loads.py. -/
inductive LoadDuration where
  | permanent
  | long_term
  | medium_term
  | short_term
  | instantaneous
deriving DecidableEq

/-- Service class 1/2/3, `ServiceClass` literal in loads.py. -/
inductive ServiceClass where
  | sc1
  | sc2
  | sc3
deriving DecidableEq

/-- `KMOD_TABLE` from loads.py (ČSN EN 1995-1-1 tab. 3.1). -/
def KMOD_TABLE (sc : ServiceClass) (d : LoadDuration) : ℚ :=
  match sc, d with
  | .sc1, .permanent => 0.60
  | .sc1, .long_term => 0.70
  | .sc1, .medium_term => 0.80
  | .sc1, .short_term => 0.90
  | .sc1, .instantaneous => 1.10
  | .sc2, .permanent => 0.60
  | .sc2, .long_term => 0.70
  | .sc2, .medium_term => 0.80
  | .sc2, .short_term => 0.90
  | .sc2, .instantaneous => 1.10
  | .sc3, .permanent => 0.50
  | .sc3, .long_term => 0.55
  | .sc3, .medium_term => 0.65
  | .sc3, .short_term => 0.70
  | .sc3, .instantaneous => 0.90

/-- `KDEF_TABLE` from loads.py (ČSN EN 1995-1-1 tab. 3.2). -/
def KDEF_TABLE (sc : ServiceClass) : ℚ :=
  match sc with
  | .sc1 => 0.60
  | .sc2 => 0.80
  | .sc3 => 2.00

/-- `PSI_2` table from loads.py with the `.get(category, 0.3)` default. -/
def PSI_2 (category : String) : ℚ :=
  match category with
  | "cat_A" => 0.3
  | "cat_B" => 0.3
  | "cat_C" => 0.6
  | "cat_D" => 0.6
  | "cat_E" => 0.8
  | "cat_H" => 0.0
  | "snow" => 0.0
  | "wind" => 0.0
  | _ => 0.3

/-- Load case, `LoadCase` dataclass in loads.py (the record itself; the
constructor validation is `mkLoadCase`). -/
structure LoadCase where
  g_k : ℚ
  q_k : ℚ
  span : ℚ
  service_class : ServiceClass
  load_duration : LoadDuration
  load_category : String
deriving DecidableEq

/-- Validating constructor: `LoadCase.__post_init__` raises, with a message
identifying the field, when `g_k < 0`, `q_k < 0` or `span ≤ 0`. -/
def mkLoadCase (g_k q_k span : ℚ) (sc : ServiceClass) (d : LoadDuration)
    (cat : String) : Except String LoadCase :=
  if g_k < 0 then
    .error "Stale zatizeni g_k nemuze byt zaporne"
  else if q_k < 0 then
    .error "Promenne zatizeni q_k nemuze byt zaporne"
  else if span ≤ 0 then
    .error "Rozpeti musi byt kladne"
  else
    .ok ⟨g_k, q_k, span, sc, d, cat⟩

/-- `LoadCase.kmod` in loads.py. -/
def LoadCase.kmod (l : LoadCase) : ℚ := KMOD_TABLE l.service_class l.load_duration

/-- `LoadCase.kdef` in loads.py. -/
def LoadCase.kdef (l : LoadCase) : ℚ := KDEF_TABLE l.service_class

/-- `LoadCase.psi_2` in loads.py. -/
def LoadCase.psi_2 (l : LoadCase) : ℚ := PSI_2 l.load_category

/-- ULS design load `LoadCase.q_Ed` (combination 6.10) in loads.py. -/
def LoadCase.q_Ed (l : LoadCase) : ℚ := 1.35 * l.g_k + 1.5 * l.q_k

/-- Characteristic SLS combination `LoadCase.q_char` in loads.py. -/
def LoadCase.q_char (l : LoadCase) : ℚ := l.g_k + l.q_k

/-- Quasi-permanent SLS combination `LoadCase.q_quasi` in loads.py. -/
def LoadCase.q_quasi (l : LoadCase) : ℚ := l.g_k + l.psi_2 * l.q_k

/-- Design bending moment `LoadCase.M_Ed` in loads.py. -/
def LoadCase.M_Ed (l : LoadCase) : ℚ := l.q_Ed * l.span ^ 2 / 8

/-- Design shear force `LoadCase.V_Ed` in loads.py. -/
def LoadCase.V_Ed (l : LoadCase) : ℚ := l.q_Ed * l.span / 2

/-- Material catalog lookup, `get_material` in materials.py: the database
itself is loaded from a data file outside the computational core, so the
lookup is modelled over an explicit association list. -/
def get_material (db : List (String × TimberMaterial)) (name : String) :
    Except String TimberMaterial :=
  match db.lookup name with
  | some m => .ok m
  | none => .error ("Neznama trida dreva: " ++ name)

/-- Result of a ULS check, `CheckResult` dataclass in timber_check.py.
`passed` is the boolean `utilization <= 1.0` computed by each check. -/
structure CheckResult where
  name : String
  utilization : ℚ
  stress_d : ℚ
  strength_d : ℚ
  passed : Bool
deriving DecidableEq

/-- Result of the deflection check, `DeflectionResult` in timber_check.py. -/
structure DeflectionResult where
  w_inst : ℚ
  w_fin : ℚ
  w_limit : ℚ
  limitRatio : ℕ
  passed : Bool
deriving DecidableEq

/-- `DeflectionResult.utilization` in timber_check.py. -/
def DeflectionResult.utilization (r : DeflectionResult) : ℚ := r.w_fin / r.w_limit

/-- Configuration of `TimberBeamCheck.__init__`: material, section, load,
effective-length factor and deflection limit denominator. -/
structure TimberBeamCheck where
  mat : TimberMaterial
  sec : RectangularSection
  load : LoadCase
  lef_factor : ℚ
  deflection_limit : ℕ
deriving DecidableEq

/-- Design bending strength `TimberBeamCheck.fm_d`. -/
def TimberBeamCheck.fm_d (c : TimberBeamCheck) : ℚ :=
  c.load.kmod * c.mat.fm_k / c.mat.gamma_M

/-- Design shear strength `TimberBeamCheck.fv_d`. -/
def TimberBeamCheck.fv_d (c : TimberBeamCheck) : ℚ :=
  c.load.kmod * c.mat.fv_k / c.mat.gamma_M

/-- Bending check `TimberBeamCheck.check_bending`. -/
def TimberBeamCheck.check_bending (c : TimberBeamCheck) : CheckResult :=
  let sigma_m_d := c.load.M_Ed * 1000000 / c.sec.W_y
  let utilization := sigma_m_d / c.fm_d
  { name := "Ohyb"
    utilization := utilization
    stress_d := sigma_m_d
    strength_d := c.fm_d
    passed := decide (utilization ≤ 1) }

/-- Shear check `TimberBeamCheck.check_shear`. -/
def TimberBeamCheck.check_shear (c : TimberBeamCheck) : CheckResult :=
  let tau_d := 1.5 * c.load.V_Ed * 1000 / (c.mat.kcr * c.sec.A)
  let utilization := tau_d / c.fv_d
  { name := "Smyk"
    utilization := utilization
    stress_d := tau_d
    strength_d := c.fv_d
    passed := decide (utilization ≤ 1) }

/-- Critical bending stress `TimberBeamCheck._calc_sigma_m_crit`:
0.78 b² E_0.05 / (h lef) with lef = lef_factor · span · 1000 mm. -/
def TimberBeamCheck.calc_sigma_m_crit (c : TimberBeamCheck) : ℚ :=
  0.78 * c.sec.b ^ 2 * c.mat.E_0_05 / (c.sec.h * (c.lef_factor * c.load.span * 1000))

/-- Square of the relative slenderness computed by
`TimberBeamCheck._calc_lambda_rel_m`; the code takes the floating-point
square root of this quantity, which is irrational in general, so the
slenderness itself enters the checks below as a parameter. -/
def TimberBeamCheck.lambda_rel_m_sq (c : TimberBeamCheck) : ℚ :=
  c.mat.fm_k / c.calc_sigma_m_crit

/-- Second branch of `TimberBeamCheck._calc_kcrit`: 1.56 − 0.75 λ. -/
def kcrit_branch2 (lam : ℚ) : ℚ := 1.56 - 0.75 * lam

/-- Third branch of `TimberBeamCheck._calc_kcrit`: 1 / λ². -/
def kcrit_branch3 (lam : ℚ) : ℚ := 1 / lam ^ 2

/-- The three-branch selection of `TimberBeamCheck._calc_kcrit` as a
function of the relative slenderness it receives. -/
def calc_kcrit (lam : ℚ) : ℚ :=
  if lam ≤ 0.75 then 1
  else if lam ≤ 1.4 then kcrit_branch2 lam
  else kcrit_branch3 lam

/-- Lateral-torsional buckling check
`TimberBeamCheck.check_lateral_torsional_buckling`, parametrized by the
slenderness value `lam` the code obtains via the square root. -/
def TimberBeamCheck.check_ltb (c : TimberBeamCheck) (lam : ℚ) : CheckResult :=
  let kcrit := calc_kcrit lam
  let sigma_m_d := c.load.M_Ed * 1000000 / c.sec.W_y
  let fm_d_red := kcrit * c.fm_d
  let utilization := sigma_m_d / fm_d_red
  { name := "Klopeni"
    utilization := utilization
    stress_d := sigma_m_d
    strength_d := fm_d_red
    passed := decide (utilization ≤ 1) }

/-- Deflection check `TimberBeamCheck.check_deflection`. -/
def TimberBeamCheck.check_deflection (c : TimberBeamCheck) : DeflectionResult :=
  let L_mm := c.load.span * 1000
  let q_char_N_mm := c.load.q_char
  let w_inst := 5 * q_char_N_mm * L_mm ^ 4 / (384 * c.mat.E_0_mean * c.sec.I_y)
  let q_g_ratio := if 0 < c.load.q_char then c.load.g_k / c.load.q_char else 1
  let q_q_ratio := if 0 < c.load.q_char then c.load.q_k / c.load.q_char else 0
  let w_fin := w_inst *
    (q_g_ratio * (1 + c.load.kdef) + q_q_ratio * (1 + c.load.psi_2 * c.load.kdef))
  let w_limit := L_mm / (c.deflection_limit : ℚ)
  { w_inst := w_inst
    w_fin := w_fin
    w_limit := w_limit
    limitRatio := c.deflection_limit
    passed := decide (w_fin ≤ w_limit) }

/-- Aggregate returned by `TimberBeamCheck.run_all_checks` (its dict keys,
as a record). -/
structure AllChecks where
  bending : CheckResult
  shear : CheckResult
  lateral_torsional_buckling : CheckResult
  deflection : DeflectionResult
  all_passed : Bool
  max_uls_utilization : ℚ
deriving DecidableEq

/-- `TimberBeamCheck.run_all_checks`, parametrized by the slenderness
value `lam` (see `TimberBeamCheck.lambda_rel_m_sq`). -/
def TimberBeamCheck.run_all_checks (c : TimberBeamCheck) (lam : ℚ) : AllChecks :=
  let bending := c.check_bending
  let shear := c.check_shear
  let ltb := c.check_ltb lam
  let deflection := c.check_deflection
  { bending := bending
    shear := shear
    lateral_torsional_buckling := ltb
    deflection := deflection
    all_passed := bending.passed && shear.passed && ltb.passed && deflection.passed
    max_uls_utilization :=
      max (max bending.utilization shear.utilization) ltb.utilization }

/-- Charring rates `CHARRING_RATES` from fire_check.py (tab. 3.1), selected
by `TimberFireCheck.beta`: normative rate when `use_beta_n`, else
one-dimensional rate. -/
def CHARRING_RATES (t : TimberType) (use_beta_n : Bool) : ℚ :=
  match t, use_beta_n with
  | .solid, true => 0.80
  | .solid, false => 0.65
  | .glulam, true => 0.70
  | .glulam, false => 0.65

/-- Zero-strength layer thickness `D0` from fire_check.py [mm]. -/
def D0 : ℚ := 7.0

/-- 20%-quantile strength conversion factor `K_FI` from fire_check.py. -/
def K_FI : ℚ := 1.25

/-- Fire-situation partial factor `GAMMA_M_FI` from fire_check.py. -/
def GAMMA_M_FI : ℚ := 1.0

/-- Fire modification factor `KMOD_FI` from fire_check.py. -/
def KMOD_FI : ℚ := 1.0

/-- Exposure pattern `ExposureType` from fire_check.py. -/
inductive ExposureType where
  | three_sides
  | four_sides
deriving DecidableEq

/-- Fire configuration, `FireExposure` dataclass in fire_check.py. -/
structure FireExposure where
  duration : ℕ
  exposure : ExposureType
  use_beta_n : Bool
deriving DecidableEq

/-- Reduced cross-section after fire, `ReducedSection` in fire_check.py. -/
structure ReducedSection where
  b_fi : ℚ
  h_fi : ℚ
  d_char : ℚ
  d_ef : ℚ
deriving DecidableEq

/-- `ReducedSection.A_fi` in fire_check.py. -/
def ReducedSection.A_fi (r : ReducedSection) : ℚ := r.b_fi * r.h_fi

/-- `ReducedSection.I_y_fi` in fire_check.py. -/
def ReducedSection.I_y_fi (r : ReducedSection) : ℚ := r.b_fi * r.h_fi ^ 3 / 12

/-- `ReducedSection.W_y_fi` in fire_check.py. -/
def ReducedSection.W_y_fi (r : ReducedSection) : ℚ := r.b_fi * r.h_fi ^ 2 / 6

/-- `ReducedSection.is_valid` in fire_check.py: true iff both reduced
dimensions are strictly positive. -/
def ReducedSection.is_valid (r : ReducedSection) : Bool :=
  decide (0 < r.b_fi) && decide (0 < r.h_fi)

/-- Configuration of `TimberFireCheck.__init__`. -/
structure TimberFireCheck where
  mat : TimberMaterial
  sec : RectangularSection
  load : LoadCase
  fire : FireExposure
deriving DecidableEq

/-- Charring rate `TimberFireCheck.beta`. -/
def TimberFireCheck.beta (c : TimberFireCheck) : ℚ :=
  CHARRING_RATES c.mat.timber_type c.fire.use_beta_n

/-- Char depth `TimberFireCheck.d_char` = β · duration. -/
def TimberFireCheck.d_char (c : TimberFireCheck) : ℚ :=
  c.beta * (c.fire.duration : ℚ)

/-- Effective char depth `TimberFireCheck.d_ef` = d_char + D0. -/
def TimberFireCheck.d_ef (c : TimberFireCheck) : ℚ := c.d_char + D0

/-- `TimberFireCheck.get_reduced_section`: exposure-dependent reduction,
clamped at zero. -/
def TimberFireCheck.get_reduced_section (c : TimberFireCheck) : ReducedSection :=
  let d_ef := c.d_ef
  let raw_b := c.sec.b - 2 * d_ef
  let raw_h :=
    match c.fire.exposure with
    | .three_sides => c.sec.h - d_ef
    | .four_sides => c.sec.h - 2 * d_ef
  { b_fi := max 0 raw_b
    h_fi := max 0 raw_h
    d_char := c.d_char
    d_ef := d_ef }

/-- Fire design bending strength `TimberFireCheck.fm_d_fi`. -/
def TimberFireCheck.fm_d_fi (c : TimberFireCheck) : ℚ :=
  KMOD_FI * K_FI * c.mat.fm_k / GAMMA_M_FI

/-- Fire design shear strength `TimberFireCheck.fv_d_fi`. -/
def TimberFireCheck.fv_d_fi (c : TimberFireCheck) : ℚ :=
  KMOD_FI * K_FI * c.mat.fv_k / GAMMA_M_FI

/-- Load-reduction factor `TimberFireCheck.eta_fi`: (g + 0.5 q) / q_Ed when
the ULS design load is strictly positive, else the documented 0.6 fallback. -/
def TimberFireCheck.eta_fi (c : TimberFireCheck) : ℚ :=
  let E_d_fi := c.load.g_k + 0.5 * c.load.q_k
  let E_d := c.load.q_Ed
  if 0 < E_d then E_d_fi / E_d else 0.6

/-- Fire design moment `TimberFireCheck.M_Ed_fi`. -/
def TimberFireCheck.M_Ed_fi (c : TimberFireCheck) : ℚ := c.eta_fi * c.load.M_Ed

/-- Fire design shear `TimberFireCheck.V_Ed_fi`. -/
def TimberFireCheck.V_Ed_fi (c : TimberFireCheck) : ℚ := c.eta_fi * c.load.V_Ed

/-- A fire-check quantity: either the float("inf") sentinel the code uses
for a fully consumed section, or a finite rational value. -/
inductive FVal where
  | inf
  | val (q : ℚ)
deriving DecidableEq

/-- Result of a fire check, `FireCheckResult` dataclass in fire_check.py. -/
structure FireCheckResult where
  name : String
  utilization : FVal
  stress_d_fi : FVal
  strength_d_fi : ℚ
  passed : Bool
deriving DecidableEq

/-- Fire bending check `TimberFireCheck.check_bending_fire`: short-circuits
on an invalid reduced section, otherwise σ = M_Ed_fi·10⁶ / W_y_fi. -/
def TimberFireCheck.check_bending_fire (c : TimberFireCheck) : FireCheckResult :=
  let reduced := c.get_reduced_section
  if reduced.is_valid then
    let sigma_m_d_fi := c.M_Ed_fi * 1000000 / reduced.W_y_fi
    let utilization := sigma_m_d_fi / c.fm_d_fi
    { name := "Ohyb (pozar)"
      utilization := .val utilization
      stress_d_fi := .val sigma_m_d_fi
      strength_d_fi := c.fm_d_fi
      passed := decide (utilization ≤ 1) }
  else
    { name := "Ohyb (pozar)"
      utilization := .inf
      stress_d_fi := .inf
      strength_d_fi := c.fm_d_fi
      passed := false }

/-- Fire shear check `TimberFireCheck.check_shear_fire`: short-circuits on
an invalid reduced section, otherwise τ = 1.5·V_Ed_fi·10³ / A_fi (no kcr). -/
def TimberFireCheck.check_shear_fire (c : TimberFireCheck) : FireCheckResult :=
  let reduced := c.get_reduced_section
  if reduced.is_valid then
    let tau_d_fi := 1.5 * c.V_Ed_fi * 1000 / reduced.A_fi
    let utilization := tau_d_fi / c.fv_d_fi
    { name := "Smyk (pozar)"
      utilization := .val utilization
      stress_d_fi := .val tau_d_fi
      strength_d_fi := c.fv_d_fi
      passed := decide (utilization ≤ 1) }
  else
    { name := "Smyk (pozar)"
      utilization := .inf
      stress_d_fi := .inf
      strength_d_fi := c.fv_d_fi
      passed := false }

/-- The `all_passed` flag of `TimberFireCheck.run_all_checks`. -/
def TimberFireCheck.all_passed (c : TimberFireCheck) : Bool :=
  c.check_bending_fire.passed && c.check_shear_fire.passed

/-- The probe increments used by `required_fire_resistance`:
`range(10, 500, 10)` = [10, 20, ..., 490]. -/
def fireDeltas : List ℕ := (List.range 49).map (fun i => 10 * (i + 1))

/-- A suggested enlarged section: the `suggested_section` dict entry of
`required_fire_resistance` (b, h, delta). -/
structure SuggestedSection where
  b : ℚ
  h : ℚ
  delta : ℕ
deriving DecidableEq

/-- The outcome of `required_fire_resistance` relevant to its contract:
whether the original section passes, and the suggestion it attaches (None
when the original passes or no probed increment succeeds). -/
structure FireResistanceOutcome where
  all_passed : Bool
  suggested_section : Option SuggestedSection
deriving DecidableEq

/-- The fire check `required_fire_resistance` builds on its original
section (normative charring rate, as `FireExposure` defaults it). -/
def origFireCheck (material : TimberMaterial) (sec0 : RectangularSection)
    (load : LoadCase) (target_duration : ℕ) (exposure : ExposureType) :
    TimberFireCheck :=
  { mat := material, sec := sec0, load := load
    fire := { duration := target_duration, exposure := exposure, use_beta_n := true } }

/-- The body of the probing loop in `required_fire_resistance`: does the
section enlarged squarely by `delta` pass both fire checks? -/
def probePasses (material : TimberMaterial) (sec0 : RectangularSection)
    (load : LoadCase) (target_duration : ℕ) (exposure : ExposureType)
    (delta : ℕ) : Bool :=
  TimberFireCheck.all_passed
    { mat := material
      sec := { b := sec0.b + (delta : ℚ), h := sec0.h + (delta : ℚ) }
      load := load
      fire := { duration := target_duration, exposure := exposure, use_beta_n := true } }

/-- `required_fire_resistance` from fire_check.py: runs the fire checks on
the original section; on failure linearly probes square enlargements by the
increments of `fireDeltas`, attaching the first (hence minimal) passing one. -/
def required_fire_resistance (material : TimberMaterial)
    (sec0 : RectangularSection) (load : LoadCase) (target_duration : ℕ)
    (exposure : ExposureType) : FireResistanceOutcome :=
  if (origFireCheck material sec0 load target_duration exposure).all_passed then
    { all_passed := true, suggested_section := none }
  else
    let found :=
      fireDeltas.find? (probePasses material sec0 load target_duration exposure)
    { all_passed := false
      suggested_section := found.map (fun (delta : ℕ) =>
        { b := sec0.b + (delta : ℚ), h := sec0.h + (delta : ℚ), delta := delta }) }

/-- A C24-style material (EN 338 values) used as concrete test input. -/
def exMaterial : TimberMaterial :=
  { name := "C24", timber_type := .solid, fm_k := 24, ft_0_k := 14, fv_k := 4
    E_0_mean := 11000, E_0_05 := 7400, rho_k := 350, rho_mean := 420 }

/-- A 160×400 mm section used as concrete test input. -/
def exSection : RectangularSection := { b := 160, h := 400 }

/-- A load case g=2, q=5 kN/m on a 5 m span used as concrete test input. -/
def exLoad : LoadCase :=
  { g_k := 2, q_k := 5, span := 5, service_class := .sc1
    load_duration := .medium_term, load_category := "cat_A" }

/-- R30, three-sides fire exposure used as concrete test input. -/
def exFire : FireExposure := { duration := 30, exposure := .three_sides, use_beta_n := true }

/-- Fire check on the concrete inputs above. -/
def exFireCheck : TimberFireCheck :=
  { mat := exMaterial, sec := exSection, load := exLoad, fire := exFire }

/-- C7: for every valid load case (g_k ≥ 0, q_k ≥ 0, span > 0) the combined
ULS design load is q_Ed = 1.35 g_k + 1.5 q_k, the design bending moment is
M_Ed = q_Ed span²/8 and the design shear force is V_Ed = q_Ed span/2. -/
theorem loadcase_uls_design_forces (l : LoadCase)
    (_hg : 0 ≤ l.g_k) (_hq : 0 ≤ l.q_k) (_hs : 0 < l.span) :
    l.q_Ed = 1.35 * l.g_k + 1.5 * l.q_k ∧
    l.M_Ed = l.q_Ed * l.span ^ 2 / 8 ∧
    l.V_Ed = l.q_Ed * l.span / 2 :=
  ⟨rfl, rfl, rfl⟩

/-- Witness for C7 on the concrete load case: 10.2 kN/m, 31.875 kNm, 25.5 kN. -/
theorem loadcase_uls_design_forces_witness :
    ((0:ℚ) ≤ exLoad.g_k ∧ (0:ℚ) ≤ exLoad.q_k ∧ (0:ℚ) < exLoad.span) ∧
    (exLoad.q_Ed = 1.35 * exLoad.g_k + 1.5 * exLoad.q_k ∧
     exLoad.M_Ed = exLoad.q_Ed * exLoad.span ^ 2 / 8 ∧
     exLoad.V_Ed = exLoad.q_Ed * exLoad.span / 2) :=
  ⟨⟨of_decide_eq_true (by with_unfolding_all rfl),
    of_decide_eq_true (by with_unfolding_all rfl),
    of_decide_eq_true (by with_unfolding_all rfl)⟩,
   loadcase_uls_design_forces exLoad (of_decide_eq_true (by with_unfolding_all rfl))
     (of_decide_eq_true (by with_unfolding_all rfl))
     (of_decide_eq_true (by with_unfolding_all rfl))⟩

/-- C4: the reduced section is b_fi = max 0 (b − 2 d_ef), with
h_fi = max 0 (h − d_ef) for three-sides and h_fi = max 0 (h − 2 d_ef) for
four-sides exposure, where d_ef = β·duration + 7 mm; on the concrete input
(solid timber, βn = 0.8, 30 min, 160×400 mm, three sides) this gives
d_char = 24 mm, d_ef = 31 mm and a 98×369 mm reduced section. -/
theorem fire_reduced_geometry (c : TimberFireCheck) :
    c.d_char = c.beta * (c.fire.duration : ℚ) ∧
    c.d_ef = c.beta * (c.fire.duration : ℚ) + 7 ∧
    c.get_reduced_section.b_fi = max 0 (c.sec.b - 2 * c.d_ef) ∧
    (c.fire.exposure = .three_sides →
      c.get_reduced_section.h_fi = max 0 (c.sec.h - c.d_ef)) ∧
    (c.fire.exposure = .four_sides →
      c.get_reduced_section.h_fi = max 0 (c.sec.h - 2 * c.d_ef)) ∧
    (exFireCheck.beta = 0.8 ∧ exFireCheck.d_char = 24 ∧ exFireCheck.d_ef = 31 ∧
     exFireCheck.get_reduced_section.b_fi = 98 ∧
     exFireCheck.get_reduced_section.h_fi = 369) := by
  refine ⟨rfl, ?_, rfl, ?_, ?_, by with_unfolding_all rfl, by with_unfolding_all rfl,
    by with_unfolding_all rfl, by with_unfolding_all rfl, by with_unfolding_all rfl⟩
  · show c.d_char + D0 = _
    rw [TimberFireCheck.d_char]
    norm_num [D0]
  · intro h
    simp only [TimberFireCheck.get_reduced_section, h]
  · intro h
    simp only [TimberFireCheck.get_reduced_section, h]

/-- Witness for C4: the three-sides branch evaluated on the concrete input. -/
theorem fire_reduced_geometry_witness :
    exFireCheck.fire.exposure = .three_sides ∧
    exFireCheck.get_reduced_section.h_fi =
      max 0 (exFireCheck.sec.h - exFireCheck.d_ef) :=
  ⟨rfl, (fire_reduced_geometry exFireCheck).2.2.2.1 rfl⟩

/-- C5: for every valid load case, η_fi = (g_k + 0.5 q_k) / q_Ed whenever
the ULS design load q_Ed is strictly positive, and η_fi = 0.6 when q_Ed is
zero, which for nonnegative loads forces g_k = q_k = 0; the division is
guarded by the positivity test. -/
theorem eta_fi_guarded (c : TimberFireCheck)
    (hg : 0 ≤ c.load.g_k) (hq : 0 ≤ c.load.q_k) :
    (0 < c.load.q_Ed →
      c.eta_fi = (c.load.g_k + 0.5 * c.load.q_k) / c.load.q_Ed) ∧
    (c.load.q_Ed = 0 →
      c.load.g_k = 0 ∧ c.load.q_k = 0 ∧ c.eta_fi = 0.6) := by
  constructor
  · intro h
    rw [TimberFireCheck.eta_fi, if_pos h]
  · intro h
    rw [LoadCase.q_Ed] at h
    have hg0 : c.load.g_k = 0 := by linarith
    have hq0 : c.load.q_k = 0 := by linarith
    refine ⟨hg0, hq0, ?_⟩
    rw [TimberFireCheck.eta_fi, if_neg]
    rw [LoadCase.q_Ed, hg0, hq0]
    norm_num

/-- Witness for C5 on the concrete load case: q_Ed = 10.2 > 0 and
η_fi = 4.5/10.2 = 15/34. -/
theorem eta_fi_guarded_witness :
    ((0:ℚ) ≤ exFireCheck.load.g_k ∧ (0:ℚ) ≤ exFireCheck.load.q_k ∧
     (0:ℚ) < exFireCheck.load.q_Ed) ∧
    exFireCheck.eta_fi =
      (exFireCheck.load.g_k + 0.5 * exFireCheck.load.q_k) / exFireCheck.load.q_Ed :=
  ⟨⟨of_decide_eq_true (by with_unfolding_all rfl),
    of_decide_eq_true (by with_unfolding_all rfl),
    of_decide_eq_true (by with_unfolding_all rfl)⟩,
   (eta_fi_guarded exFireCheck (of_decide_eq_true (by with_unfolding_all rfl))
     (of_decide_eq_true (by with_unfolding_all rfl))).1
     (of_decide_eq_true (by with_unfolding_all rfl))⟩

/-- Counterexample to C1 as stated: at the branch boundary λrel,m = 0.75
the selected kcrit is 1.0, but the adjacent second-branch formula yields
1.56 − 0.75·0.75 = 0.9975 ≠ 1.0, so the two adjacent branches do not both
yield kcrit = 1.0 there. -/
theorem kcrit_boundary_counterexample :
    calc_kcrit (0.75 : ℚ) = 1 ∧
    kcrit_branch2 (0.75 : ℚ) = 0.9975 ∧
    kcrit_branch2 (0.75 : ℚ) ≠ 1 :=
  ⟨by with_unfolding_all rfl, by with_unfolding_all rfl,
   of_decide_eq_true (by with_unfolding_all rfl)⟩

/-- C1 (amended): kcrit is selected from λrel,m by the three-branch policy
(≤ 0.75 → 1.0; (0.75, 1.4] → 1.56 − 0.75 λ; > 1.4 → 1/λ²); at the boundary
λrel,m = 0.75 the selected value is 1.0 while the second-branch formula
yields 0.9975 (within 0.0025 of 1.0); at λrel,m = 1.4 the second branch
gives 0.51 and the third 1/1.4² = 25/49, matching within 1/4900. -/
theorem kcrit_three_branch_policy (lam : ℚ) :
    (lam ≤ 0.75 → calc_kcrit lam = 1) ∧
    (0.75 < lam → lam ≤ 1.4 → calc_kcrit lam = 1.56 - 0.75 * lam) ∧
    (1.4 < lam → calc_kcrit lam = 1 / lam ^ 2) ∧
    (calc_kcrit (0.75 : ℚ) = 1 ∧ kcrit_branch2 (0.75 : ℚ) = 0.9975 ∧
     |kcrit_branch2 (0.75 : ℚ) - 1| ≤ 0.0025) ∧
    (kcrit_branch2 (1.4 : ℚ) = 0.51 ∧ kcrit_branch3 (1.4 : ℚ) = 25 / 49 ∧
     |kcrit_branch2 (1.4 : ℚ) - kcrit_branch3 (1.4 : ℚ)| = 1 / 4900) := by
  refine ⟨?_, ?_, ?_, ⟨by with_unfolding_all rfl, by with_unfolding_all rfl, ?_⟩,
    ⟨by with_unfolding_all rfl, by with_unfolding_all rfl, ?_⟩⟩
  · intro h
    rw [calc_kcrit, if_pos h]
  · intro h1 h2
    rw [calc_kcrit, if_neg (not_le.mpr h1), if_pos h2, kcrit_branch2]
  · intro h
    have h1 : ¬lam ≤ 0.75 := by
      apply not_le.mpr
      calc (0.75 : ℚ) < 1.4 := by norm_num
        _ < lam := h
    rw [calc_kcrit, if_neg h1, if_neg (not_le.mpr h), kcrit_branch3]
  · have hval : kcrit_branch2 (0.75 : ℚ) - 1 = -(1 / 400) := by
      rw [kcrit_branch2]
      norm_num
    rw [hval, abs_neg, abs_of_nonneg (by norm_num)]
    norm_num
  · have hval : kcrit_branch2 (1.4 : ℚ) - kcrit_branch3 (1.4 : ℚ) = -(1 / 4900) := by
      rw [kcrit_branch2, kcrit_branch3]
      norm_num
    rw [hval, abs_neg, abs_of_nonneg (by norm_num)]

/-- Witness for the amended C1 at λrel,m = 1.2 (interior of branch 2). -/
theorem kcrit_three_branch_policy_witness :
    ((0.75 : ℚ) < 1.2 ∧ (1.2 : ℚ) ≤ 1.4) ∧
    calc_kcrit (1.2 : ℚ) = 1.56 - 0.75 * 1.2 :=
  ⟨⟨of_decide_eq_true (by with_unfolding_all rfl),
    of_decide_eq_true (by with_unfolding_all rfl)⟩,
   (kcrit_three_branch_policy 1.2).2.1
     (of_decide_eq_true (by with_unfolding_all rfl))
     (of_decide_eq_true (by with_unfolding_all rfl))⟩

/-- C2: whenever the reduced section is invalid (a reduced dimension not
strictly positive), both fire checks short-circuit to the constant failing
record: utilization and stress are the infinity sentinel, the strength is
the nominal fire design strength, passed is false, and no arithmetic is
performed on the degenerate geometry (the result does not depend on it). -/
theorem fire_checks_degenerate_short_circuit (c : TimberFireCheck)
    (h : c.get_reduced_section.is_valid = false) :
    c.check_bending_fire =
      { name := "Ohyb (pozar)", utilization := .inf, stress_d_fi := .inf
        strength_d_fi := c.fm_d_fi, passed := false } ∧
    c.check_shear_fire =
      { name := "Smyk (pozar)", utilization := .inf, stress_d_fi := .inf
        strength_d_fi := c.fv_d_fi, passed := false } := by
  constructor
  · simp [TimberFireCheck.check_bending_fire, h]
  · simp [TimberFireCheck.check_shear_fire, h]

/-- A 10×10 mm section fully consumed by 30 min of fire: concrete input for
the degenerate fire-check witness. -/
def exBurnedCheck : TimberFireCheck :=
  { mat := exMaterial, sec := { b := 10, h := 10 }, load := exLoad, fire := exFire }

/-- Witness for C2: the 10×10 section is fully burned at R30 and both fire
checks return the infinite-utilization failing record. -/
theorem fire_checks_degenerate_short_circuit_witness :
    exBurnedCheck.get_reduced_section.is_valid = false ∧
    (exBurnedCheck.check_bending_fire =
      { name := "Ohyb (pozar)", utilization := .inf, stress_d_fi := .inf
        strength_d_fi := exBurnedCheck.fm_d_fi, passed := false } ∧
     exBurnedCheck.check_shear_fire =
      { name := "Smyk (pozar)", utilization := .inf, stress_d_fi := .inf
        strength_d_fi := exBurnedCheck.fv_d_fi, passed := false }) :=
  ⟨by with_unfolding_all rfl,
   fire_checks_degenerate_short_circuit exBurnedCheck (by with_unfolding_all rfl)⟩

/-- C9: invalid inputs are rejected at construction/lookup time: a section
with non-positive width or depth, a load case with negative loads or
non-positive span (with a message identifying the offending field), and an
unknown material grade name all produce errors before any check runs. -/
theorem invalid_inputs_rejected :
    (∀ b h : ℚ, b ≤ 0 ∨ h ≤ 0 → ∃ e, mkRectangularSection b h = .error e) ∧
    (∀ (g q s : ℚ) (sc : ServiceClass) (d : LoadDuration) (cat : String),
      g < 0 → mkLoadCase g q s sc d cat = .error "Stale zatizeni g_k nemuze byt zaporne") ∧
    (∀ (g q s : ℚ) (sc : ServiceClass) (d : LoadDuration) (cat : String),
      0 ≤ g → q < 0 →
      mkLoadCase g q s sc d cat = .error "Promenne zatizeni q_k nemuze byt zaporne") ∧
    (∀ (g q s : ℚ) (sc : ServiceClass) (d : LoadDuration) (cat : String),
      0 ≤ g → 0 ≤ q → s ≤ 0 →
      mkLoadCase g q s sc d cat = .error "Rozpeti musi byt kladne") ∧
    (∀ (db : List (String × TimberMaterial)) (name : String),
      db.lookup name = none →
      get_material db name = .error ("Neznama trida dreva: " ++ name)) := by
  refine ⟨?_, ?_, ?_, ?_, ?_⟩
  · intro b h hbh
    refine ⟨"Rozmery prurezu musi byt kladne", ?_⟩
    rw [mkRectangularSection, if_pos hbh]
  · intro g q s sc d cat hg
    rw [mkLoadCase, if_pos hg]
  · intro g q s sc d cat hg hq
    rw [mkLoadCase, if_neg (not_lt.mpr hg), if_pos hq]
  · intro g q s sc d cat hg hq hs
    rw [mkLoadCase, if_neg (not_lt.mpr hg), if_neg (not_lt.mpr hq), if_pos hs]
  · intro db name hnone
    rw [get_material, hnone]

/-- Witness for C9: a zero-width section, each invalid load-case field, and
a lookup in an empty catalog are all rejected. -/
theorem invalid_inputs_rejected_witness :
    (∃ e, mkRectangularSection 0 100 = .error e) ∧
    mkLoadCase (-1) 0 5 .sc1 .medium_term "cat_A" =
      .error "Stale zatizeni g_k nemuze byt zaporne" ∧
    mkLoadCase 0 (-1) 5 .sc1 .medium_term "cat_A" =
      .error "Promenne zatizeni q_k nemuze byt zaporne" ∧
    mkLoadCase 2 5 0 .sc1 .medium_term "cat_A" =
      .error "Rozpeti musi byt kladne" ∧
    get_material [] "C99" = .error ("Neznama trida dreva: " ++ "C99") :=
  ⟨invalid_inputs_rejected.1 0 100 (Or.inl (of_decide_eq_true (by with_unfolding_all rfl))),
   invalid_inputs_rejected.2.1 (-1) 0 5 .sc1 .medium_term "cat_A"
     (of_decide_eq_true (by with_unfolding_all rfl)),
   invalid_inputs_rejected.2.2.1 0 (-1) 5 .sc1 .medium_term "cat_A"
     (of_decide_eq_true (by with_unfolding_all rfl))
     (of_decide_eq_true (by with_unfolding_all rfl)),
   invalid_inputs_rejected.2.2.2.1 2 5 0 .sc1 .medium_term "cat_A"
     (of_decide_eq_true (by with_unfolding_all rfl))
     (of_decide_eq_true (by with_unfolding_all rfl))
     (of_decide_eq_true (by with_unfolding_all rfl)),
   invalid_inputs_rejected.2.2.2.2 [] "C99" rfl⟩

/-- C10: for a valid load case with g_k + q_k > 0 the load-reduction factor
η_fi lies in [1/3, 1/1.35]; it is 0.6 when both loads vanish; it is < 1 in
all cases; hence the fire-situation internal forces never exceed the
ordinary ones, strictly so when the loads are not both zero. -/
theorem eta_fi_bounds (c : TimberFireCheck)
    (hg : 0 ≤ c.load.g_k) (hq : 0 ≤ c.load.q_k) (hs : 0 < c.load.span) :
    (0 < c.load.g_k + c.load.q_k →
      1 / 3 ≤ c.eta_fi ∧ c.eta_fi ≤ 1 / 1.35) ∧
    (c.load.g_k = 0 ∧ c.load.q_k = 0 → c.eta_fi = 0.6) ∧
    c.eta_fi < 1 ∧
    c.M_Ed_fi ≤ c.load.M_Ed ∧
    c.V_Ed_fi ≤ c.load.V_Ed ∧
    (0 < c.load.g_k + c.load.q_k →
      c.M_Ed_fi < c.load.M_Ed ∧ c.V_Ed_fi < c.load.V_Ed) := by
  have hEd : c.load.q_Ed = 1.35 * c.load.g_k + 1.5 * c.load.q_k := rfl
  have hEd_nonneg : 0 ≤ c.load.q_Ed := by rw [hEd]; linarith
  have heta_lt_one : c.eta_fi < 1 := by
    rw [TimberFireCheck.eta_fi]
    by_cases hpos : 0 < c.load.q_Ed
    · rw [if_pos hpos, div_lt_one hpos, hEd]
      rw [hEd] at hpos
      linarith
    · rw [if_neg hpos]
      norm_num
  have hM_nonneg : 0 ≤ c.load.M_Ed := by
    rw [LoadCase.M_Ed]
    exact div_nonneg (mul_nonneg hEd_nonneg (sq_nonneg _)) (by norm_num)
  have hV_nonneg : 0 ≤ c.load.V_Ed := by
    rw [LoadCase.V_Ed]
    exact div_nonneg (mul_nonneg hEd_nonneg (le_of_lt hs)) (by norm_num)
  have hEd_pos : 0 < c.load.g_k + c.load.q_k → 0 < c.load.q_Ed := by
    intro hsum
    rw [hEd]
    linarith
  refine ⟨?_, ?_, heta_lt_one, ?_, ?_, ?_⟩
  · intro hsum
    have hpos := hEd_pos hsum
    rw [TimberFireCheck.eta_fi, if_pos hpos]
    constructor
    · rw [div_le_div_iff₀ (by norm_num) hpos, hEd]
      linarith
    · rw [div_le_div_iff₀ hpos (by norm_num), hEd]
      linarith
  · rintro ⟨hg0, hq0⟩
    rw [TimberFireCheck.eta_fi, if_neg]
    rw [hEd, hg0, hq0]
    norm_num
  · calc c.M_Ed_fi = c.eta_fi * c.load.M_Ed := rfl
      _ ≤ 1 * c.load.M_Ed :=
        mul_le_mul_of_nonneg_right (le_of_lt heta_lt_one) hM_nonneg
      _ = c.load.M_Ed := one_mul _
  · calc c.V_Ed_fi = c.eta_fi * c.load.V_Ed := rfl
      _ ≤ 1 * c.load.V_Ed :=
        mul_le_mul_of_nonneg_right (le_of_lt heta_lt_one) hV_nonneg
      _ = c.load.V_Ed := one_mul _
  · intro hsum
    have hpos := hEd_pos hsum
    have hM_pos : 0 < c.load.M_Ed := by
      rw [LoadCase.M_Ed]
      exact div_pos (mul_pos hpos (pow_pos hs 2)) (by norm_num)
    have hV_pos : 0 < c.load.V_Ed := by
      rw [LoadCase.V_Ed]
      exact div_pos (mul_pos hpos hs) (by norm_num)
    constructor
    · calc c.M_Ed_fi = c.eta_fi * c.load.M_Ed := rfl
        _ < 1 * c.load.M_Ed := mul_lt_mul_of_pos_right heta_lt_one hM_pos
        _ = c.load.M_Ed := one_mul _
    · calc c.V_Ed_fi = c.eta_fi * c.load.V_Ed := rfl
        _ < 1 * c.load.V_Ed := mul_lt_mul_of_pos_right heta_lt_one hV_pos
        _ = c.load.V_Ed := one_mul _

/-- Witness for C10 on the concrete inputs: η_fi = 15/34 ∈ [1/3, 1/1.35]
and the fire moment is strictly below the ordinary design moment. -/
theorem eta_fi_bounds_witness :
    ((0:ℚ) ≤ exFireCheck.load.g_k ∧ (0:ℚ) ≤ exFireCheck.load.q_k ∧
     (0:ℚ) < exFireCheck.load.span ∧
     (0:ℚ) < exFireCheck.load.g_k + exFireCheck.load.q_k) ∧
    (1 / 3 ≤ exFireCheck.eta_fi ∧ exFireCheck.eta_fi ≤ 1 / 1.35) ∧
    exFireCheck.M_Ed_fi < exFireCheck.load.M_Ed :=
  ⟨⟨of_decide_eq_true (by with_unfolding_all rfl),
    of_decide_eq_true (by with_unfolding_all rfl),
    of_decide_eq_true (by with_unfolding_all rfl),
    of_decide_eq_true (by with_unfolding_all rfl)⟩,
   (eta_fi_bounds exFireCheck (of_decide_eq_true (by with_unfolding_all rfl))
     (of_decide_eq_true (by with_unfolding_all rfl))
     (of_decide_eq_true (by with_unfolding_all rfl))).1
     (of_decide_eq_true (by with_unfolding_all rfl)),
   ((eta_fi_bounds exFireCheck (of_decide_eq_true (by with_unfolding_all rfl))
     (of_decide_eq_true (by with_unfolding_all rfl))
     (of_decide_eq_true (by with_unfolding_all rfl))).2.2.2.2.2
     (of_decide_eq_true (by with_unfolding_all rfl))).1⟩

/-- Helper: with a positive span and a positive limit denominator the
deflection limit span·1000 / limit is strictly positive. -/
theorem w_limit_pos (c : TimberBeamCheck) (hs : 0 < c.load.span)
    (hd : 0 < c.deflection_limit) :
    0 < c.load.span * 1000 / (c.deflection_limit : ℚ) := by
  apply div_pos (by linarith)
  exact_mod_cast hd

/-- C3: every result of run_all_checks has passed = true exactly when its
utilization is ≤ 1 — for bending, shear and buckling by construction, and
for deflection because w_limit = span·1000/limit is strictly positive for
a valid load case, so w_fin/w_limit ≤ 1 iff w_fin ≤ w_limit. -/
theorem run_all_checks_passed_iff_utilization (c : TimberBeamCheck) (lam : ℚ)
    (hs : 0 < c.load.span) (hd : 0 < c.deflection_limit) :
    ((c.run_all_checks lam).bending.passed = true ↔
      (c.run_all_checks lam).bending.utilization ≤ 1) ∧
    ((c.run_all_checks lam).shear.passed = true ↔
      (c.run_all_checks lam).shear.utilization ≤ 1) ∧
    ((c.run_all_checks lam).lateral_torsional_buckling.passed = true ↔
      (c.run_all_checks lam).lateral_torsional_buckling.utilization ≤ 1) ∧
    ((c.run_all_checks lam).deflection.passed = true ↔
      (c.run_all_checks lam).deflection.utilization ≤ 1) := by
  refine ⟨?_, ?_, ?_, ?_⟩
  · simp [TimberBeamCheck.run_all_checks, TimberBeamCheck.check_bending]
  · simp [TimberBeamCheck.run_all_checks, TimberBeamCheck.check_shear]
  · simp [TimberBeamCheck.run_all_checks, TimberBeamCheck.check_ltb]
  · have hlim := w_limit_pos c hs hd
    simp only [TimberBeamCheck.run_all_checks, TimberBeamCheck.check_deflection,
      DeflectionResult.utilization, decide_eq_true_eq]
    rw [div_le_one hlim]

/-- Beam check on the concrete inputs (lef_factor 1, limit L/300). -/
def exBeamCheck : TimberBeamCheck :=
  { mat := exMaterial, sec := exSection, load := exLoad
    lef_factor := 1, deflection_limit := 300 }

/-- Witness for C3 on the concrete beam with slenderness parameter 1. -/
theorem run_all_checks_passed_iff_utilization_witness :
    ((0:ℚ) < exBeamCheck.load.span ∧ 0 < exBeamCheck.deflection_limit) ∧
    ((exBeamCheck.run_all_checks 1).deflection.passed = true ↔
      (exBeamCheck.run_all_checks 1).deflection.utilization ≤ 1) :=
  ⟨⟨of_decide_eq_true (by with_unfolding_all rfl), by decide⟩,
   (run_all_checks_passed_iff_utilization exBeamCheck 1
     (of_decide_eq_true (by with_unfolding_all rfl)) (by decide)).2.2.2⟩

/-- C8: the deflection check computes w_inst = 5 q_char L⁴/(384 E I_y),
w_fin by the proportional creep recombination with share ratios g/q_char
and q/q_char (1 and 0 when q_char = 0), w_limit = L/limit, and passes
exactly when w_fin ≤ w_limit; for a valid load case q_char is zero or
strictly positive, so the two ratio branches are exhaustive. -/
theorem check_deflection_formulas (c : TimberBeamCheck)
    (hg : 0 ≤ c.load.g_k) (hq : 0 ≤ c.load.q_k) :
    c.check_deflection.w_inst =
      5 * c.load.q_char * (c.load.span * 1000) ^ 4 /
        (384 * c.mat.E_0_mean * c.sec.I_y) ∧
    (c.load.q_char = 0 ∨ 0 < c.load.q_char) ∧
    (c.load.q_char = 0 →
      c.check_deflection.w_fin =
        c.check_deflection.w_inst *
          (1 * (1 + c.load.kdef) + 0 * (1 + c.load.psi_2 * c.load.kdef))) ∧
    (0 < c.load.q_char →
      c.check_deflection.w_fin =
        c.check_deflection.w_inst *
          ((c.load.g_k / c.load.q_char) * (1 + c.load.kdef) +
           (c.load.q_k / c.load.q_char) * (1 + c.load.psi_2 * c.load.kdef))) ∧
    c.check_deflection.w_limit = c.load.span * 1000 / (c.deflection_limit : ℚ) ∧
    (c.check_deflection.passed = true ↔
      c.check_deflection.w_fin ≤ c.check_deflection.w_limit) := by
  have hdich : c.load.q_char = 0 ∨ 0 < c.load.q_char := by
    rcases lt_or_eq_of_le (show (0:ℚ) ≤ c.load.q_char by
      rw [LoadCase.q_char]; linarith) with h | h
    · exact Or.inr h
    · exact Or.inl h.symm
  refine ⟨rfl, hdich, ?_, ?_, rfl, ?_⟩
  · intro h0
    simp only [TimberBeamCheck.check_deflection, h0, lt_irrefl, if_false]
  · intro hpos
    simp only [TimberBeamCheck.check_deflection, if_pos hpos]
  · simp only [TimberBeamCheck.check_deflection, decide_eq_true_eq]

/-- Witness for C8 on the concrete beam: q_char = 7 > 0, so the positive
branch of the share ratios applies. -/
theorem check_deflection_formulas_witness :
    ((0:ℚ) ≤ exBeamCheck.load.g_k ∧ (0:ℚ) ≤ exBeamCheck.load.q_k ∧
     (0:ℚ) < exBeamCheck.load.q_char) ∧
    exBeamCheck.check_deflection.w_fin =
      exBeamCheck.check_deflection.w_inst *
        ((exBeamCheck.load.g_k / exBeamCheck.load.q_char) *
           (1 + exBeamCheck.load.kdef) +
         (exBeamCheck.load.q_k / exBeamCheck.load.q_char) *
           (1 + exBeamCheck.load.psi_2 * exBeamCheck.load.kdef)) :=
  ⟨⟨of_decide_eq_true (by with_unfolding_all rfl),
    of_decide_eq_true (by with_unfolding_all rfl),
    of_decide_eq_true (by with_unfolding_all rfl)⟩,
   ((check_deflection_formulas exBeamCheck
     (of_decide_eq_true (by with_unfolding_all rfl))
     (of_decide_eq_true (by with_unfolding_all rfl))).2.2.2.1
     (of_decide_eq_true (by with_unfolding_all rfl)))⟩

/-- Helper: `List.find?` on a strictly sorted list returns a satisfying
element that is minimal: every smaller member of the list fails the
predicate. -/
theorem find?_sorted_minimal (p : ℕ → Bool) :
    ∀ (l : List ℕ), l.Pairwise (· < ·) → ∀ d, l.find? p = some d →
      p d = true ∧ d ∈ l ∧ ∀ x ∈ l, x < d → p x = false := by
  intro l
  induction l with
  | nil =>
    intro _ d hfind
    simp [List.find?] at hfind
  | cons a t ih =>
    intro hpw d hfind
    obtain ⟨hlt, htpw⟩ := List.pairwise_cons.mp hpw
    cases hpa : p a with
    | false =>
      rw [List.find?_cons, hpa] at hfind
      obtain ⟨hpd, hmem, hmin⟩ := ih htpw d hfind
      refine ⟨hpd, List.mem_cons_of_mem _ hmem, ?_⟩
      intro x hx hxd
      rcases List.mem_cons.mp hx with rfl | hx2
      · exact hpa
      · exact hmin x hx2 hxd
    | true =>
      rw [List.find?_cons, hpa] at hfind
      cases hfind
      refine ⟨hpa, List.mem_cons_self a t, ?_⟩
      intro x hx hxd
      rcases List.mem_cons.mp hx with rfl | hx2
      · exact absurd hxd (lt_irrefl x)
      · exact absurd hxd (not_lt.mpr (le_of_lt (hlt x hx2)))

/-- C6: when the original section passes at the target duration, no probing
occurs and no suggestion is attached; when it fails, the outcome records
the failure and: if some probed increment (step 10 up to 490 < 500) passes
both fire checks, a suggestion is returned; any returned suggestion is a
probed increment that passes both fire checks, is minimal among the probed
increments, and carries the squarely enlarged dimensions; if every probed
increment fails, no suggestion is returned. -/
theorem required_fire_resistance_search (material : TimberMaterial)
    (sec0 : RectangularSection) (load : LoadCase) (dur : ℕ) (ex : ExposureType) :
    ((origFireCheck material sec0 load dur ex).all_passed = true →
      required_fire_resistance material sec0 load dur ex =
        { all_passed := true, suggested_section := none }) ∧
    ((origFireCheck material sec0 load dur ex).all_passed = false →
      (required_fire_resistance material sec0 load dur ex).all_passed = false ∧
      ((∃ d ∈ fireDeltas, probePasses material sec0 load dur ex d = true) →
        ∃ sug,
          (required_fire_resistance material sec0 load dur ex).suggested_section =
            some sug) ∧
      (∀ sug,
        (required_fire_resistance material sec0 load dur ex).suggested_section =
          some sug →
        sug.delta ∈ fireDeltas ∧
        sug.b = sec0.b + (sug.delta : ℚ) ∧
        sug.h = sec0.h + (sug.delta : ℚ) ∧
        probePasses material sec0 load dur ex sug.delta = true ∧
        ∀ d ∈ fireDeltas, d < sug.delta →
          probePasses material sec0 load dur ex d = false) ∧
      ((∀ d ∈ fireDeltas, probePasses material sec0 load dur ex d = false) →
        (required_fire_resistance material sec0 load dur ex).suggested_section =
          none)) := by
  constructor
  · intro h
    rw [required_fire_resistance, if_pos h]
  · intro h
    have hcond : ¬((origFireCheck material sec0 load dur ex).all_passed = true) := by
      rw [h]
      exact Bool.false_ne_true
    have hr : required_fire_resistance material sec0 load dur ex =
        { all_passed := false
          suggested_section :=
            (fireDeltas.find? (probePasses material sec0 load dur ex)).map
              (fun (delta : ℕ) =>
                { b := sec0.b + (delta : ℚ), h := sec0.h + (delta : ℚ)
                  delta := delta }) } := by
      rw [required_fire_resistance, if_neg hcond]
    refine ⟨by rw [hr], ?_, ?_, ?_⟩
    · rintro ⟨d, hd, hpd⟩
      cases hfind : fireDeltas.find? (probePasses material sec0 load dur ex) with
      | none =>
        exact absurd hpd (List.find?_eq_none.mp hfind d hd)
      | some d0 =>
        exact ⟨{ b := sec0.b + (d0 : ℚ), h := sec0.h + (d0 : ℚ), delta := d0 },
          by rw [hr, hfind]; rfl⟩
    · intro sug hsug
      rw [hr] at hsug
      simp only [Option.map_eq_some'] at hsug
      obtain ⟨d, hfind, hf⟩ := hsug
      have hpw : fireDeltas.Pairwise (· < ·) := by decide
      obtain ⟨hpd, hmem, hmin⟩ :=
        find?_sorted_minimal (probePasses material sec0 load dur ex)
          fireDeltas hpw d hfind
      rw [← hf]
      exact ⟨hmem, rfl, rfl, hpd, hmin⟩
    · intro hall
      rw [hr]
      have hnone : fireDeltas.find? (probePasses material sec0 load dur ex) = none := by
        rw [List.find?_eq_none]
        intro x hx
        rw [hall x hx]
        exact Bool.false_ne_true
      rw [hnone, Option.map_none']

/-- Witness for C6 on a 50×50 mm section that is burned through at R30: the
original check fails, increment 140 passes, and the theorem yields that a
suggestion is returned; evaluation shows it is the minimal one, 190×190 at
delta = 140. -/
theorem required_fire_resistance_search_witness :
    ((origFireCheck exMaterial { b := 50, h := 50 } exLoad 30 .three_sides).all_passed
       = false ∧
     (140 : ℕ) ∈ fireDeltas ∧
     probePasses exMaterial { b := 50, h := 50 } exLoad 30 .three_sides 140 = true) ∧
    (required_fire_resistance exMaterial { b := 50, h := 50 } exLoad 30
       .three_sides).all_passed = false ∧
    (∃ sug,
      (required_fire_resistance exMaterial { b := 50, h := 50 } exLoad 30
        .three_sides).suggested_section = some sug) ∧
    (required_fire_resistance exMaterial { b := 50, h := 50 } exLoad 30
      .three_sides).suggested_section =
        some { b := 190, h := 190, delta := 140 } :=
  ⟨⟨by with_unfolding_all rfl, by decide, by with_unfolding_all rfl⟩,
   ((required_fire_resistance_search exMaterial { b := 50, h := 50 } exLoad 30
       .three_sides).2 (by with_unfolding_all rfl)).1,
   ((required_fire_resistance_search exMaterial { b := 50, h := 50 } exLoad 30
       .three_sides).2 (by with_unfolding_all rfl)).2.1
     ⟨140, by decide, by with_unfolding_all rfl⟩,
   by with_unfolding_all rfl⟩
